import Mathlib

/-!
Verification of the Tuas/Woodlands checkpoint traffic capture script
(`capture_traffic.py`) against its specification.

The script is a single linear pipeline:
fetch camera list → filter to a watchlist → download each image with
validation → write metadata → regenerate a summary/report.

We give a shallow embedding: HTTP interactions become explicit event
parameters, filesystem writes become explicit output fields, and each
Python function becomes a Lean function over those.
-/

/-- JSON values, as produced by `response.json()`.  Numeric payloads are
opaque to every piece of control flow in the script, so numbers are
modelled as `Int`. -/
inductive JValue where
  | null
  | bool (b : Bool)
  | num (n : Int)
  | str (s : String)
  | arr (elems : List JValue)
  | obj (fields : List (String × JValue))

/-- Python exceptions that can escape the modelled functions. -/
inductive PyError where
  | attributeError
deriving DecidableEq

/-- Outcome of the upstream `requests.get(API_URL, ...)` interaction in
`get_traffic_images`:
* `netError` — the GET or `response.raise_for_status()` raised a
  `requests.exceptions.RequestException`;
* `badJson` — the body was not valid JSON, so `response.json()` raised
  `JSONDecodeError` (a `RequestException` subclass in requests ≥ 2.27);
* `body v` — the body parsed as the JSON value `v`. -/
inductive FetchEvent where
  | netError
  | badJson
  | body (v : JValue)

/-- `dict.get k` on a JSON object (key lists are assumed duplicate-free,
as the Python dict construction from JSON guarantees unique keys). -/
def lookupField (fields : List (String × JValue)) (k : String) : Option JValue :=
  (fields.find? (fun p => p.1 == k)).map Prod.snd

/-- `data.get(k, dflt)`. -/
def dictGetD (fields : List (String × JValue)) (k : String) (dflt : JValue) : JValue :=
  (lookupField fields k).getD dflt

/-- `get_traffic_images` (capture_traffic.py lines 28-48).
`RequestException`s (network/HTTP failure, and the non-JSON-body case)
are caught and yield `[]`; otherwise `data.get("value", [])` is
evaluated, which raises `AttributeError` when the parsed body is not a
JSON object (Python dict). -/
def get_traffic_images (ev : FetchEvent) : Except PyError JValue :=
  match ev with
  | .netError => .ok (.arr [])
  | .badJson => .ok (.arr [])
  | .body v =>
    match v with
    | .obj fields => .ok (dictGetD fields "value" (.arr []))
    | _ => .error .attributeError

/-- An HTTP response for one image GET whose status checks passed. -/
structure DLResponse where
  contentType : String
  content : List Nat
deriving DecidableEq

/-- Outcome of `requests.get(image_url, ...)` in `download_image`:
`exn` covers every exception path (`Timeout`, other
`RequestException`s including a non-2xx status via
`raise_for_status`, and the catch-all `except Exception`). -/
inductive DLEvent where
  | exn
  | resp (r : DLResponse)
deriving DecidableEq

/-- The Python `in` operator on strings: substring containment. -/
def strContainsSub (haystack needle : String) : Bool :=
  decide (needle.toList <:+: haystack.toList)

/-- The content-type check of `download_image`: `"image" in content_type.lower()`. -/
def isImageContentType (ct : String) : Bool :=
  strContainsSub ct.toLower "image"

/-- `download_image` (capture_traffic.py lines 50-89), with an ideal
filesystem (writes succeed and are observable).  Returns the Python
boolean result together with the bytes written to `save_path`
(`none` = nothing written). -/
def download_image (ev : DLEvent) : Bool × Option (List Nat) :=
  match ev with
  | .exn => (false, none)
  | .resp r =>
    if !(isImageContentType r.contentType) then (false, none)
    else if r.content.length < 1000 then (false, none)
    else
      -- `f.write(response.content)` followed by the post-write check
      -- `save_path.exists() and save_path.stat().st_size > 0`
      if r.content.length > 0 then (true, some r.content)
      else (false, some r.content)

/-- A camera record from the upstream feed, restricted to the fields the
script consumes (`CameraID`, `Location`, `ImageLink`, `Latitude`,
`Longitude`); each is `none` when the key is absent. -/
structure Camera where
  cameraID : Option String
  location : Option String
  imageLink : Option String
  latitude : Option Int
  longitude : Option Int
deriving DecidableEq

/-- `CHECKPOINT_CAMERA_IDS` (capture_traffic.py lines 20-26). -/
def CHECKPOINT_CAMERA_IDS : List String :=
  ["2701", "2702", "4703", "4713", "4714"]

/-- `cam.get("CameraID") in CHECKPOINT_CAMERA_IDS`
(an absent identifier, i.e. `None`, matches nothing). -/
def matchesWatchlistID (c : Camera) : Bool :=
  c.cameraID.any (fun i => CHECKPOINT_CAMERA_IDS.contains i)

/-- `any(keyword in cam.get("Location", "").lower()
for keyword in ["tuas", "woodlands", "causeway"])`. -/
def matchesLocationKeyword (c : Camera) : Bool :=
  ["tuas", "woodlands", "causeway"].any
    (fun keyword => strContainsSub ((c.location.getD "").toLower) keyword)

/-- The watchlist filter of `capture_checkpoint_cameras`
(capture_traffic.py lines 122-131): primary match by camera identifier,
falling back to the location-keyword match exactly when the primary
match is empty.  The boolean records whether the fallback was consulted. -/
def selectCheckpointCameras (cams : List Camera) : List Camera × Bool :=
  let byID := cams.filter matchesWatchlistID
  if byID.isEmpty then (cams.filter matchesLocationKeyword, true)
  else (byID, false)

/-- One entry of the `cameras` list of the metadata document
(capture_traffic.py lines 157-164). -/
structure MetaEntry where
  camera_id : Option String
  location : String
  filename : String
  image_url : String
  latitude : Option Int
  longitude : Option Int
deriving DecidableEq

/-- The per-run metadata document (capture_traffic.py lines 133-139). -/
structure Metadata where
  timestamp : String
  date : String
  time : String
  timezone : String
  cameras : List MetaEntry
deriving DecidableEq

/-- The mutable state of the per-camera loop of
`capture_checkpoint_cameras`: the growing `cameras` metadata list,
both counters, the image files written so far, and the index of the
next image HTTP request (so that the download oracle `dl` can assign an
independent outcome to every single request). -/
structure LoopState where
  entries : List MetaEntry
  successful_downloads : Nat
  failed_downloads : Nat
  files : List (String × List Nat)
  nextReq : Nat
deriving DecidableEq

/-- One iteration of the per-camera loop of `capture_checkpoint_cameras`
(capture_traffic.py lines 144-171).  `dl n` is the outcome of the n-th
image GET of the run. -/
def processCamera (dl : Nat → DLEvent) (dateFolder timeStr : String)
    (st : LoopState) (camera : Camera) : LoopState :=
  let image_url := camera.imageLink.getD ""
  if image_url.isEmpty then
    -- `else` branch: no image URL available
    { st with failed_downloads := st.failed_downloads + 1 }
  else
    let filename :=
      "camera_" ++ camera.cameraID.getD "None" ++ "_" ++ dateFolder ++ "_"
        ++ timeStr ++ ".jpg"
    let res := download_image (dl st.nextReq)
    let files := st.files ++ (match res.2 with
      | some bytes => [(filename, bytes)]
      | none => [])
    if res.1 then
      { entries := st.entries ++ [{
          camera_id := camera.cameraID
          location := camera.location.getD "Unknown"
          filename := filename
          image_url := image_url
          latitude := camera.latitude
          longitude := camera.longitude }]
        successful_downloads := st.successful_downloads + 1
        failed_downloads := st.failed_downloads
        files := files
        nextReq := st.nextReq + 1 }
    else
      { st with
        failed_downloads := st.failed_downloads + 1
        files := files
        nextReq := st.nextReq + 1 }

/-- A selected camera the loop skips without a download attempt:
`camera.get("ImageLink")` is absent or empty, so `if image_url:` is
false. -/
def missingURL (c : Camera) : Bool :=
  (c.imageLink.getD "").isEmpty

/-- How many selected cameras are skipped for lack of an image URL. -/
def missingURLCount (cams : List Camera) : Nat :=
  (cams.filter missingURL).length

/-- How many selected cameras have an image URL but a failing download,
when the image requests of the run are numbered from `i`. -/
def failedDownloadCount (dl : Nat → DLEvent) : Nat → List Camera → Nat
  | _, [] => 0
  | i, c :: cs =>
    if missingURL c then failedDownloadCount dl i cs
    else if (download_image (dl i)).1 then failedDownloadCount dl (i + 1) cs
    else failedDownloadCount dl (i + 1) cs + 1

/-- Everything a run of `capture_checkpoint_cameras` does to the archive
directory, plus its two counters. -/
structure RunResult where
  dirCreated : Bool
  imageWrites : List (String × List Nat)
  metadataWritten : Option Metadata
  successful_downloads : Nat
  failed_downloads : Nat
  summaryWritten : Bool
  readmeWritten : Bool
deriving DecidableEq

/-- `capture_checkpoint_cameras` (capture_traffic.py lines 91-195), with
an ideal filesystem.  Parameters: the `LTA_API_KEY` value, the date and
time partition keys and ISO timestamp derived from the current SGT time,
the camera list returned by `get_traffic_images` (assumed well-shaped,
i.e. a list of camera records as in the upstream data model), and the
per-request download oracle.  The final `generate_summary()` call writes
the summary and README because `OUTPUT_DIR` exists at that point (the
run created `daily_dir` inside it with `parents=True`). -/
def capture_checkpoint_cameras (apiKey : String)
    (dateFolder timeStr timestamp : String)
    (cameras : List Camera) (dl : Nat → DLEvent) : RunResult :=
  if apiKey.isEmpty then
    -- `if not LTA_API_KEY: ... return`, before any archive I/O
    { dirCreated := false, imageWrites := [], metadataWritten := none
      successful_downloads := 0, failed_downloads := 0
      summaryWritten := false, readmeWritten := false }
  else
    -- `daily_dir.mkdir(parents=True, exist_ok=True)`
    if cameras.isEmpty then
      -- `if not cameras: ... return` (after the mkdir)
      { dirCreated := true, imageWrites := [], metadataWritten := none
        successful_downloads := 0, failed_downloads := 0
        summaryWritten := false, readmeWritten := false }
    else
      let checkpoint_cameras := (selectCheckpointCameras cameras).1
      let final := checkpoint_cameras.foldl (processCamera dl dateFolder timeStr)
        { entries := [], successful_downloads := 0, failed_downloads := 0
          files := [], nextReq := 0 }
      let metadata : Metadata :=
        { timestamp := timestamp, date := dateFolder, time := timeStr
          timezone := "Asia/Singapore (SGT)", cameras := final.entries }
      { dirCreated := true
        imageWrites := final.files
        metadataWritten := some metadata
        successful_downloads := final.successful_downloads
        failed_downloads := final.failed_downloads
        summaryWritten := true
        readmeWritten := true }

/-- One entry of the archive root directory, as seen by
`OUTPUT_DIR.iterdir()`: its name, whether it is a directory, and (when a
directory) the file names inside it. -/
structure DirEntry where
  name : String
  isDir : Bool
  files : List String
deriving DecidableEq

/-- The archive state `generate_summary` scans: whether `OUTPUT_DIR`
exists, and its entries. -/
structure Archive where
  rootExists : Bool
  entries : List DirEntry
deriving DecidableEq

/-- One element of the `days` list of the summary
(capture_traffic.py lines 219-223). -/
structure DaySummary where
  date : String
  captures : Nat
  images : Nat
deriving DecidableEq

/-- The summary document (capture_traffic.py lines 203-209). -/
structure Summary where
  last_updated : String
  timezone : String
  total_days : Nat
  total_captures : Nat
  days : List DaySummary
deriving DecidableEq

/-- `glob` with a pattern `pre*suf` (a single `*` wildcard), as used for
`metadata_*.json` and `camera_*.jpg`: the name starts with `pre`, ends
with `suf`, and is long enough that the two do not overlap. -/
def globMatch (pre suf name : String) : Bool :=
  pre.toList.isPrefixOf name.toList && decide (suf.toList <:+ name.toList)
    && pre.length + suf.length ≤ name.length

/-- `len(date_dir.glob(pattern))` for a `pre*suf` pattern. -/
def countGlob (pre suf : String) (files : List String) : Nat :=
  (files.filter (globMatch pre suf)).length

/-- The body of the `for date_dir in sorted(OUTPUT_DIR.iterdir())` loop
(capture_traffic.py lines 211-223). -/
def addDay (s : Summary) (e : DirEntry) : Summary :=
  if e.isDir then
    { s with
      total_days := s.total_days + 1
      total_captures := s.total_captures + countGlob "metadata_" ".json" e.files
      days := s.days ++ [{
        date := e.name
        captures := countGlob "metadata_" ".json" e.files
        images := countGlob "camera_" ".jpg" e.files }] }
  else s

/-- `sorted(OUTPUT_DIR.iterdir())`: directory entries sorted by name
(Python sorts `Path`s lexicographically; `sorted` is stable, as is
insertion sort). -/
def sortEntries (es : List DirEntry) : List DirEntry :=
  List.insertionSort (fun a b => a.name ≤ b.name) es

/-- What one call to `generate_summary` writes. -/
structure SummaryRun where
  summaryFile : Option Summary
  readmeWritten : Bool
deriving DecidableEq

/-- `generate_summary` (capture_traffic.py lines 197-231), with an ideal
filesystem.  `now` is the freshly computed SGT timestamp.  When the
archive root is missing the function returns immediately and writes
nothing; otherwise it writes `summary.json` and (via `generate_readme`)
`README.md`. -/
def generate_summary (now : String) (arch : Archive) : SummaryRun :=
  if !arch.rootExists then
    { summaryFile := none, readmeWritten := false }
  else
    let summary := (sortEntries arch.entries).foldl addDay
      { last_updated := now, timezone := "Asia/Singapore (SGT)"
        total_days := 0, total_captures := 0, days := [] }
    { summaryFile := some summary, readmeWritten := true }

/-- A concrete watchlisted camera record, for witnesses. -/
def camTuas : Camera :=
  { cameraID := some "4713", location := some "Tuas Checkpoint"
    imageLink := some "url4713", latitude := some 1, longitude := some 103 }

/-- A concrete watchlisted camera record with no image URL, for
witnesses. -/
def camNoURL : Camera :=
  { cameraID := some "2701", location := some "Woodlands Causeway"
    imageLink := none, latitude := none, longitude := none }

/-- A plausible image response, for witnesses. -/
def goodImageResp : DLResponse :=
  { contentType := "image/jpeg", content := List.replicate 1000 7 }

/-- A download oracle whose requests all succeed, for witnesses. -/
def dlAlwaysGood : Nat → DLEvent := fun _ => DLEvent.resp goodImageResp

/-- A concrete one-day archive, for witnesses. -/
def archOneDay : Archive :=
  { rootExists := true
    entries := [
      { name := "2026-01-23", isDir := true
        files := ["metadata_2026-01-23_05-30-45.json",
                  "camera_4713_2026-01-23_05-30-45.jpg", "notes.txt"] }] }

/-! ## Theorems -/

/-- C2: a response whose declared content type does not indicate an image,
or whose body is under the 1000-byte minimum, is rejected by
`download_image`: it returns failure and writes no bytes, even though the
HTTP status checks passed; and bytes reach the destination only when both
checks pass (in which case the result is success). -/
theorem download_image_validates (r : DLResponse)
    (h : isImageContentType r.contentType = false ∨ r.content.length < 1000) :
    download_image (DLEvent.resp r) = (false, none)
    ∧ ∀ ev : DLEvent, (download_image ev).2 ≠ none →
        (download_image ev).1 = true
        ∧ ∃ r2 : DLResponse, ev = DLEvent.resp r2
            ∧ isImageContentType r2.contentType = true
            ∧ 1000 ≤ r2.content.length := by
  constructor
  · rcases h with h | h
    · simp [download_image, h]
    · by_cases hi : isImageContentType r.contentType = true
      · simp [download_image, hi, h]
      · simp only [Bool.not_eq_true] at hi
        simp [download_image, hi]
  · intro ev hne
    cases ev with
    | exn => simp [download_image] at hne
    | resp r2 =>
      by_cases hi : isImageContentType r2.contentType = true
      · by_cases hl : r2.content.length < 1000
        · simp [download_image, hi, hl] at hne
        · have hp : r2.content.length > 0 := by omega
          exact ⟨by simp [download_image, hi, hl, hp], r2, rfl, hi, by omega⟩
      · simp only [Bool.not_eq_true] at hi
        simp [download_image, hi] at hne

/-- C2 witness: an empty body is rejected without a write. -/
theorem download_image_validates_witness :
    download_image (DLEvent.resp { contentType := "image/jpeg", content := [] })
      = (false, none) :=
  (download_image_validates { contentType := "image/jpeg", content := [] }
    (Or.inr (by decide))).1

/-- C3 counterexample: a syntactically valid JSON body whose top level is
not an object (here the number 3) makes `get_traffic_images` raise an
uncaught `AttributeError` at `data.get("value", [])` instead of returning
the empty list. -/
theorem get_traffic_images_raises_cx :
    get_traffic_images (FetchEvent.body (JValue.num 3))
        = Except.error PyError.attributeError
    ∧ get_traffic_images (FetchEvent.body (JValue.num 3))
        ≠ Except.ok (JValue.arr []) :=
  ⟨rfl, fun h => nomatch h⟩

/-- C3 (amended): as long as any JSON body is a JSON object,
`get_traffic_images` never raises: network/HTTP errors and non-JSON
bodies yield the empty list, and an object body yields its `value` field
(defaulting to the empty list).  A valid-JSON body whose top level is not
an object is the one input that raises (`AttributeError`). -/
theorem get_traffic_images_no_raise (ev : FetchEvent)
    (h : ∀ v, ev = FetchEvent.body v → ∃ fields, v = JValue.obj fields) :
    ∃ r, get_traffic_images ev = Except.ok r
      ∧ ((ev = FetchEvent.netError ∨ ev = FetchEvent.badJson) → r = JValue.arr [])
      ∧ (∀ fields, ev = FetchEvent.body (JValue.obj fields) →
          r = dictGetD fields "value" (JValue.arr [])) := by
  cases ev with
  | netError =>
    exact ⟨JValue.arr [], rfl, fun _ => rfl, fun fields hf => nomatch hf⟩
  | badJson =>
    exact ⟨JValue.arr [], rfl, fun _ => rfl, fun fields hf => nomatch hf⟩
  | body v =>
    obtain ⟨fields, rfl⟩ := h v rfl
    refine ⟨dictGetD fields "value" (JValue.arr []), rfl, ?_, ?_⟩
    · rintro (h1 | h1) <;> exact nomatch h1
    · intro fields2 hf
      cases hf
      rfl

/-- C3 witness: a network error yields the empty list without raising. -/
theorem get_traffic_images_no_raise_witness :
    ∃ r, get_traffic_images FetchEvent.netError = Except.ok r
      ∧ ((FetchEvent.netError = FetchEvent.netError
            ∨ FetchEvent.netError = FetchEvent.badJson) → r = JValue.arr [])
      ∧ (∀ fields, FetchEvent.netError = FetchEvent.body (JValue.obj fields) →
          r = dictGetD fields "value" (JValue.arr [])) :=
  get_traffic_images_no_raise FetchEvent.netError (fun _ hv => nomatch hv)

/-- C5: the keyword fallback of the watchlist filter is consulted exactly
when the primary identifier match over the upstream list is empty; when
the primary match is non-empty its result is returned and the fallback is
not consulted. -/
theorem watchlist_fallback_iff (cams : List Camera) :
    ((selectCheckpointCameras cams).2 = true
        ↔ cams.filter matchesWatchlistID = [])
    ∧ (cams.filter matchesWatchlistID ≠ [] →
        (selectCheckpointCameras cams).1 = cams.filter matchesWatchlistID
        ∧ (selectCheckpointCameras cams).2 = false) := by
  by_cases h : (cams.filter matchesWatchlistID).isEmpty = true
  · have he := List.isEmpty_iff.mp h
    exact ⟨by simp [selectCheckpointCameras, h, he], fun hne => absurd he hne⟩
  · simp only [Bool.not_eq_true] at h
    have hne : cams.filter matchesWatchlistID ≠ [] := by
      intro e
      rw [e] at h
      simp at h
    exact ⟨by simp [selectCheckpointCameras, h, hne],
      fun _ => by simp [selectCheckpointCameras, h]⟩

/-- C5 witness: on a list whose only record is watchlisted, the primary
match is non-empty, the fallback is not used, and the primary result is
returned. -/
theorem watchlist_fallback_iff_witness :
    (selectCheckpointCameras [camTuas]).1 = [camTuas].filter matchesWatchlistID
    ∧ (selectCheckpointCameras [camTuas]).2 = false :=
  (watchlist_fallback_iff [camTuas]).2 (by decide)

/-- C6: the watchlist filter (identifier match with keyword fallback) is
idempotent: applying it to its own output returns that output unchanged,
order included. -/
theorem watchlist_filter_idempotent (cams : List Camera) :
    (selectCheckpointCameras (selectCheckpointCameras cams).1).1
      = (selectCheckpointCameras cams).1 := by
  by_cases h : (cams.filter matchesWatchlistID).isEmpty = true
  · have hsel : selectCheckpointCameras cams
        = (cams.filter matchesLocationKeyword, true) := by
      simp [selectCheckpointCameras, h]
    rw [hsel]
    have hP := List.filter_eq_nil_iff.mp (List.isEmpty_iff.mp h)
    have h2 : (cams.filter matchesLocationKeyword).filter matchesWatchlistID
        = [] := by
      rw [List.filter_eq_nil_iff]
      intro a ha
      exact hP a (List.mem_of_mem_filter ha)
    have h3 : (cams.filter matchesLocationKeyword).filter matchesLocationKeyword
        = cams.filter matchesLocationKeyword := by
      rw [List.filter_eq_self]
      intro a ha
      exact List.of_mem_filter ha
    simp [selectCheckpointCameras, h2, h3]
  · simp only [Bool.not_eq_true] at h
    have hsel : selectCheckpointCameras cams
        = (cams.filter matchesWatchlistID, false) := by
      simp [selectCheckpointCameras, h]
    rw [hsel]
    have h2 : (cams.filter matchesWatchlistID).filter matchesWatchlistID
        = cams.filter matchesWatchlistID := by
      rw [List.filter_eq_self]
      intro a ha
      exact List.of_mem_filter ha
    simp [selectCheckpointCameras, h2, h]

/-- C6 witness: idempotence at a concrete two-record list. -/
theorem watchlist_filter_idempotent_witness :
    (selectCheckpointCameras
        (selectCheckpointCameras [camTuas, camNoURL]).1).1
      = (selectCheckpointCameras [camTuas, camNoURL]).1 :=
  watchlist_filter_idempotent [camTuas, camNoURL]

/-- C9: when the archive root does not exist, `generate_summary` is a
no-op on the filesystem: neither the summary document nor the README
report is written. -/
theorem generate_summary_missing_root (now : String) (arch : Archive)
    (h : arch.rootExists = false) :
    generate_summary now arch = { summaryFile := none, readmeWritten := false } := by
  simp [generate_summary, h]

/-- C9 witness: a missing root with a concrete timestamp. -/
theorem generate_summary_missing_root_witness :
    generate_summary "2026-01-23T05:30:45+08:00" { rootExists := false, entries := [] }
      = { summaryFile := none, readmeWritten := false } :=
  generate_summary_missing_root "2026-01-23T05:30:45+08:00"
    { rootExists := false, entries := [] } rfl

/-- Loop step, no-URL case: only the failure counter moves. -/
theorem processCamera_missing (dl : Nat → DLEvent) (d t : String)
    (st : LoopState) (c : Camera) (hm : missingURL c = true) :
    processCamera dl d t st c
      = { st with failed_downloads := st.failed_downloads + 1 } := by
  simp only [missingURL] at hm
  simp [processCamera, hm]

/-- Loop step, successful-download case: one entry is appended, the
success counter moves, and the request index advances. -/
theorem processCamera_ok (dl : Nat → DLEvent) (d t : String)
    (st : LoopState) (c : Camera) (hm : missingURL c = false)
    (hd : (download_image (dl st.nextReq)).1 = true) :
    (processCamera dl d t st c).entries.length = st.entries.length + 1
    ∧ (processCamera dl d t st c).successful_downloads
        = st.successful_downloads + 1
    ∧ (processCamera dl d t st c).failed_downloads = st.failed_downloads
    ∧ (processCamera dl d t st c).nextReq = st.nextReq + 1 := by
  simp only [missingURL] at hm
  simp [processCamera, hm, hd]

/-- Loop step, failed-download case: only the failure counter moves and
the request index advances. -/
theorem processCamera_failDl (dl : Nat → DLEvent) (d t : String)
    (st : LoopState) (c : Camera) (hm : missingURL c = false)
    (hd : (download_image (dl st.nextReq)).1 = false) :
    (processCamera dl d t st c).entries = st.entries
    ∧ (processCamera dl d t st c).successful_downloads
        = st.successful_downloads
    ∧ (processCamera dl d t st c).failed_downloads = st.failed_downloads + 1
    ∧ (processCamera dl d t st c).nextReq = st.nextReq + 1 := by
  simp only [missingURL] at hm
  simp [processCamera, hm, hd]

/-- Counting invariant of the per-camera loop: successes and failures
together count the processed cameras, the metadata entries count the
successes, and the failures decompose into missing-URL skips plus failed
downloads. -/
theorem loop_spec (dl : Nat → DLEvent) (d t : String) (cams : List Camera) :
    ∀ st : LoopState,
      ((cams.foldl (processCamera dl d t) st).successful_downloads
          + (cams.foldl (processCamera dl d t) st).failed_downloads
        = st.successful_downloads + st.failed_downloads + cams.length)
      ∧ ((cams.foldl (processCamera dl d t) st).entries.length
          + st.successful_downloads
        = st.entries.length
          + (cams.foldl (processCamera dl d t) st).successful_downloads)
      ∧ ((cams.foldl (processCamera dl d t) st).failed_downloads
        = st.failed_downloads + missingURLCount cams
            + failedDownloadCount dl st.nextReq cams) := by
  induction cams with
  | nil =>
    intro st
    simp [missingURLCount, failedDownloadCount]
  | cons c cs ih =>
    intro st
    rw [List.foldl_cons]
    by_cases hm : missingURL c = true
    · rw [processCamera_missing dl d t st c hm]
      obtain ⟨h1, h2, h3⟩ := ih { st with failed_downloads := st.failed_downloads + 1 }
      have e1 : missingURLCount (c :: cs) = missingURLCount cs + 1 := by
        simp [missingURLCount, List.filter_cons, hm]
      have e2 : failedDownloadCount dl st.nextReq (c :: cs)
          = failedDownloadCount dl st.nextReq cs := by
        simp [failedDownloadCount, hm]
      simp only [List.length_cons] at *
      exact ⟨by omega, by omega, by omega⟩
    · simp only [Bool.not_eq_true] at hm
      have e1 : missingURLCount (c :: cs) = missingURLCount cs := by
        simp [missingURLCount, List.filter_cons, hm]
      obtain ⟨h1, h2, h3⟩ := ih (processCamera dl d t st c)
      by_cases hd : (download_image (dl st.nextReq)).1 = true
      · obtain ⟨p1, p2, p3, p4⟩ := processCamera_ok dl d t st c hm hd
        have e2 : failedDownloadCount dl st.nextReq (c :: cs)
            = failedDownloadCount dl (st.nextReq + 1) cs := by
          simp [failedDownloadCount, hm, hd]
        rw [p4] at h3
        simp only [List.length_cons] at *
        exact ⟨by omega, by omega, by omega⟩
      · simp only [Bool.not_eq_true] at hd
        obtain ⟨p1, p2, p3, p4⟩ := processCamera_failDl dl d t st c hm hd
        have e2 : failedDownloadCount dl st.nextReq (c :: cs)
            = failedDownloadCount dl (st.nextReq + 1) cs + 1 := by
          simp [failedDownloadCount, hm, hd]
        rw [p4] at h3
        have p1l : (processCamera dl d t st c).entries.length
            = st.entries.length := by rw [p1]
        simp only [List.length_cons] at *
        exact ⟨by omega, by omega, by omega⟩

/-- C7: with an empty API key the run aborts before any I/O against the
archive: no directory is created and no image, metadata, summary, or
README file is written. -/
theorem run_aborts_without_key (apiKey dateFolder timeStr timestamp : String)
    (cameras : List Camera) (dl : Nat → DLEvent) (hkey : apiKey = "") :
    capture_checkpoint_cameras apiKey dateFolder timeStr timestamp cameras dl
      = { dirCreated := false, imageWrites := [], metadataWritten := none
          successful_downloads := 0, failed_downloads := 0
          summaryWritten := false, readmeWritten := false } := by
  subst hkey
  simp [capture_checkpoint_cameras, String.isEmpty_iff]

/-- C7 witness: a concrete run with the key unset. -/
theorem run_aborts_without_key_witness :
    capture_checkpoint_cameras "" "2026-01-23" "05-30-45"
        "2026-01-23T05:30:45+08:00" [camTuas] dlAlwaysGood
      = { dirCreated := false, imageWrites := [], metadataWritten := none
          successful_downloads := 0, failed_downloads := 0
          summaryWritten := false, readmeWritten := false } :=
  run_aborts_without_key "" "2026-01-23" "05-30-45"
    "2026-01-23T05:30:45+08:00" [camTuas] dlAlwaysGood rfl

/-- C1: in a run with a non-empty key and non-empty upstream list, the
metadata camera list has exactly `successful_downloads` entries, the two
counters sum to the number of selected cameras, and the entry count is
the selected count minus failed downloads minus missing-URL cameras. -/
theorem run_metadata_counts (apiKey dateFolder timeStr timestamp : String)
    (cameras : List Camera) (dl : Nat → DLEvent)
    (hkey : apiKey ≠ "") (hcams : cameras ≠ []) :
    ∃ m : Metadata,
      (capture_checkpoint_cameras apiKey dateFolder timeStr timestamp
          cameras dl).metadataWritten = some m
      ∧ m.cameras.length
          = (capture_checkpoint_cameras apiKey dateFolder timeStr timestamp
              cameras dl).successful_downloads
      ∧ (capture_checkpoint_cameras apiKey dateFolder timeStr timestamp
            cameras dl).successful_downloads
          + (capture_checkpoint_cameras apiKey dateFolder timeStr timestamp
              cameras dl).failed_downloads
          = ((selectCheckpointCameras cameras).1).length
      ∧ m.cameras.length
          = ((selectCheckpointCameras cameras).1).length
            - failedDownloadCount dl 0 (selectCheckpointCameras cameras).1
            - missingURLCount (selectCheckpointCameras cameras).1 := by
  have hk : apiKey.isEmpty = false := by
    cases hb : apiKey.isEmpty with
    | false => rfl
    | true => exact absurd ((String.isEmpty_iff apiKey).mp hb) hkey
  obtain ⟨h1, h2, h3⟩ := loop_spec dl dateFolder timeStr
    (selectCheckpointCameras cameras).1
    { entries := [], successful_downloads := 0, failed_downloads := 0
      files := [], nextReq := 0 }
  simp [capture_checkpoint_cameras, hk, hcams]
  simp at h1 h2 h3
  exact ⟨h2, h1, by omega⟩

/-- C1 witness: one watchlisted camera with a URL and one without; the
metadata has one entry, one success, one failure, over two selected. -/
theorem run_metadata_counts_witness :
    ∃ m : Metadata,
      (capture_checkpoint_cameras "key" "2026-01-23" "05-30-45"
          "2026-01-23T05:30:45+08:00" [camTuas, camNoURL]
          dlAlwaysGood).metadataWritten = some m
      ∧ m.cameras.length
          = (capture_checkpoint_cameras "key" "2026-01-23" "05-30-45"
              "2026-01-23T05:30:45+08:00" [camTuas, camNoURL]
              dlAlwaysGood).successful_downloads
      ∧ (capture_checkpoint_cameras "key" "2026-01-23" "05-30-45"
            "2026-01-23T05:30:45+08:00" [camTuas, camNoURL]
            dlAlwaysGood).successful_downloads
          + (capture_checkpoint_cameras "key" "2026-01-23" "05-30-45"
              "2026-01-23T05:30:45+08:00" [camTuas, camNoURL]
              dlAlwaysGood).failed_downloads
          = ((selectCheckpointCameras [camTuas, camNoURL]).1).length
      ∧ m.cameras.length
          = ((selectCheckpointCameras [camTuas, camNoURL]).1).length
            - failedDownloadCount dlAlwaysGood 0
                (selectCheckpointCameras [camTuas, camNoURL]).1
            - missingURLCount (selectCheckpointCameras [camTuas, camNoURL]).1 :=
  run_metadata_counts "key" "2026-01-23" "05-30-45"
    "2026-01-23T05:30:45+08:00" [camTuas, camNoURL] dlAlwaysGood
    (by simp) (by simp)

/-- C8: any run not aborted at the key check or the empty-upstream check
writes exactly one metadata document, whatever the per-camera outcomes;
with zero successes its camera list is empty. -/
theorem run_always_writes_metadata (apiKey dateFolder timeStr timestamp : String)
    (cameras : List Camera) (dl : Nat → DLEvent)
    (hkey : apiKey ≠ "") (hcams : cameras ≠ []) :
    ∃ m : Metadata,
      (capture_checkpoint_cameras apiKey dateFolder timeStr timestamp
          cameras dl).metadataWritten = some m
      ∧ ((capture_checkpoint_cameras apiKey dateFolder timeStr timestamp
            cameras dl).successful_downloads = 0 → m.cameras = []) := by
  have hk : apiKey.isEmpty = false := by
    cases hb : apiKey.isEmpty with
    | false => rfl
    | true => exact absurd ((String.isEmpty_iff apiKey).mp hb) hkey
  obtain ⟨h1, h2, h3⟩ := loop_spec dl dateFolder timeStr
    (selectCheckpointCameras cameras).1
    { entries := [], successful_downloads := 0, failed_downloads := 0
      files := [], nextReq := 0 }
  simp [capture_checkpoint_cameras, hk, hcams]
  simp at h1 h2 h3
  intro hz
  rw [← List.length_eq_zero]
  omega

/-- C8 witness: a run whose only selected camera has no image URL still
writes a metadata document, with an empty camera list. -/
theorem run_always_writes_metadata_witness :
    ∃ m : Metadata,
      (capture_checkpoint_cameras "key" "2026-01-23" "05-30-45"
          "2026-01-23T05:30:45+08:00" [camNoURL]
          dlAlwaysGood).metadataWritten = some m
      ∧ ((capture_checkpoint_cameras "key" "2026-01-23" "05-30-45"
            "2026-01-23T05:30:45+08:00" [camNoURL]
            dlAlwaysGood).successful_downloads = 0 → m.cameras = []) :=
  run_always_writes_metadata "key" "2026-01-23" "05-30-45"
    "2026-01-23T05:30:45+08:00" [camNoURL] dlAlwaysGood (by simp) (by simp)

/-- Mapping the per-day capture counts out of the constructed day records
recovers the per-directory metadata file counts. -/
theorem map_mkDay_captures (l : List DirEntry) :
    ((l.map (fun e => ({ date := e.name
                         captures := countGlob "metadata_" ".json" e.files
                         images := countGlob "camera_" ".jpg" e.files } : DaySummary))).map
        (fun d => d.captures))
      = l.map (fun e => countGlob "metadata_" ".json" e.files) := by
  rw [List.map_map]
  rfl

/-- Mapping the dates out of the constructed day records recovers the
directory names. -/
theorem map_mkDay_dates (l : List DirEntry) :
    ((l.map (fun e => ({ date := e.name
                         captures := countGlob "metadata_" ".json" e.files
                         images := countGlob "camera_" ".jpg" e.files } : DaySummary))).map
        (fun d => d.date))
      = l.map (fun e => e.name) := by
  rw [List.map_map]
  rfl

/-- Characterization of the `generate_summary` scan loop: the timestamp
and timezone are untouched, every directory entry (and only those) adds a
day, and the totals accumulate the matching file counts. -/
theorem addDay_fold (es : List DirEntry) :
    ∀ s : Summary,
      (es.foldl addDay s).last_updated = s.last_updated
      ∧ (es.foldl addDay s).timezone = s.timezone
      ∧ (es.foldl addDay s).total_days
          = s.total_days + (es.filter (fun e => e.isDir)).length
      ∧ (es.foldl addDay s).total_captures
          = s.total_captures
            + ((es.filter (fun e => e.isDir)).map
                (fun e => countGlob "metadata_" ".json" e.files)).sum
      ∧ (es.foldl addDay s).days
          = s.days ++ (es.filter (fun e => e.isDir)).map
              (fun e => { date := e.name
                          captures := countGlob "metadata_" ".json" e.files
                          images := countGlob "camera_" ".jpg" e.files }) := by
  induction es with
  | nil =>
    intro s
    simp
  | cons e es ih =>
    intro s
    rw [List.foldl_cons]
    obtain ⟨i1, i2, i3, i4, i5⟩ := ih (addDay s e)
    by_cases hd : e.isDir = true
    · have p1 : (addDay s e).last_updated = s.last_updated := by simp [addDay, hd]
      have p2 : (addDay s e).timezone = s.timezone := by simp [addDay, hd]
      have p3 : (addDay s e).total_days = s.total_days + 1 := by simp [addDay, hd]
      have p4 : (addDay s e).total_captures
          = s.total_captures + countGlob "metadata_" ".json" e.files := by
        simp [addDay, hd]
      have p5 : (addDay s e).days
          = s.days ++ [{ date := e.name
                         captures := countGlob "metadata_" ".json" e.files
                         images := countGlob "camera_" ".jpg" e.files }] := by
        simp [addDay, hd]
      rw [p1] at i1
      rw [p2] at i2
      rw [p3] at i3
      rw [p4] at i4
      rw [p5] at i5
      refine ⟨i1, i2, ?_, ?_, ?_⟩
      · simp only [List.filter_cons, hd, if_pos, List.length_cons]
        omega
      · simp only [List.filter_cons, hd, if_pos, List.map_cons, List.sum_cons]
        omega
      · rw [i5]
        simp [List.filter_cons, hd, List.append_assoc]
    · simp only [Bool.not_eq_true] at hd
      have ha : addDay s e = s := by simp [addDay, hd]
      rw [ha] at i1 i2 i3 i4 i5 ⊢
      simp only [List.filter_cons, hd]
      exact ⟨i1, i2, i3, i4, i5⟩

/-- Mapping the (date, captures, images) triples out of the constructed
day records recovers the per-directory names and file counts. -/
theorem map_mkDay_triple (l : List DirEntry) :
    ((l.map (fun e => ({ date := e.name
                         captures := countGlob "metadata_" ".json" e.files
                         images := countGlob "camera_" ".jpg" e.files } : DaySummary))).map
        (fun d => (d.date, d.captures, d.images)))
      = l.map (fun e => (e.name, countGlob "metadata_" ".json" e.files,
          countGlob "camera_" ".jpg" e.files)) := by
  rw [List.map_map]
  rfl

/-- C10: every summary document the generator writes is internally
consistent: the day total is the length of the per-day list, the capture
total is the sum of the per-day capture counts, and every subdirectory of
the archive root appears as a day, whatever its name. -/
theorem summary_internally_consistent (now : String) (arch : Archive)
    (s : Summary)
    (h : (generate_summary now arch).summaryFile = some s) :
    s.total_days = s.days.length
    ∧ s.total_captures = (s.days.map (fun d => d.captures)).sum
    ∧ s.days.map (fun d => d.date)
        = ((sortEntries arch.entries).filter (fun e => e.isDir)).map
            (fun e => e.name) := by
  by_cases hr : arch.rootExists = true
  · simp [generate_summary, hr] at h
    obtain ⟨a1, a2, a3, a4, a5⟩ := addDay_fold (sortEntries arch.entries)
      { last_updated := now, timezone := "Asia/Singapore (SGT)"
        total_days := 0, total_captures := 0, days := [] }
    rw [← h]
    refine ⟨?_, ?_, ?_⟩
    · rw [a3, a5]
      simp
    · rw [a4, a5]
      dsimp only
      simp only [List.nil_append, Nat.zero_add]
      rw [map_mkDay_captures]
    · rw [a5]
      simp [map_mkDay_dates]
  · simp only [Bool.not_eq_true] at hr
    simp [generate_summary, hr] at h

/-- C10 witness: the summary of a concrete one-day archive. -/
theorem summary_internally_consistent_witness :
    ∃ s : Summary,
      (generate_summary "2026-01-23T06:00:00+08:00" archOneDay).summaryFile
          = some s
      ∧ s.total_days = s.days.length
      ∧ s.total_captures = (s.days.map (fun d => d.captures)).sum
      ∧ s.days.map (fun d => d.date)
          = ((sortEntries archOneDay.entries).filter (fun e => e.isDir)).map
              (fun e => e.name) := by
  have he : (generate_summary "2026-01-23T06:00:00+08:00" archOneDay).summaryFile
      = some { last_updated := "2026-01-23T06:00:00+08:00"
               timezone := "Asia/Singapore (SGT)"
               total_days := 1, total_captures := 1
               days := [{ date := "2026-01-23", captures := 1, images := 1 }] } := by
    decide
  exact ⟨_, he, summary_internally_consistent "2026-01-23T06:00:00+08:00"
    archOneDay _ he⟩

/-- C4 counterexample: two consecutive summary-generator runs over the
same archive state do not produce an identical summary document, because
the freshly computed last-updated timestamp of the second run differs. -/
theorem generate_summary_not_identical_cx :
    generate_summary "2026-01-23T05:30:45+08:00" { rootExists := true, entries := [] }
      ≠ generate_summary "2026-01-23T12:30:45+08:00" { rootExists := true, entries := [] } := by
  decide

/-- C4 (amended): two summary-generator runs over the same archive state
produce identical summary documents except for the last-updated
timestamp (timezone, totals and per-day list all agree), and in every
run the totals equal exactly the counts on disk: the day total is the
number of subdirectories, the capture total is the number of
metadata-pattern files across them, and the per-day list carries the
metadata and image file counts of each subdirectory. -/
theorem generate_summary_deterministic_counts (now1 now2 : String)
    (arch : Archive) (s1 s2 : Summary)
    (h1 : (generate_summary now1 arch).summaryFile = some s1)
    (h2 : (generate_summary now2 arch).summaryFile = some s2) :
    s1.last_updated = now1
    ∧ s1.timezone = s2.timezone
    ∧ s1.total_days = s2.total_days
    ∧ s1.total_captures = s2.total_captures
    ∧ s1.days = s2.days
    ∧ s1.total_days = (arch.entries.filter (fun e => e.isDir)).length
    ∧ s1.total_captures
        = ((arch.entries.filter (fun e => e.isDir)).map
            (fun e => countGlob "metadata_" ".json" e.files)).sum
    ∧ s1.days.map (fun d => (d.date, d.captures, d.images))
        = ((sortEntries arch.entries).filter (fun e => e.isDir)).map
            (fun e => (e.name, countGlob "metadata_" ".json" e.files,
              countGlob "camera_" ".jpg" e.files)) := by
  by_cases hr : arch.rootExists = true
  · simp [generate_summary, hr] at h1 h2
    obtain ⟨a1, a2, a3, a4, a5⟩ := addDay_fold (sortEntries arch.entries)
      { last_updated := now1, timezone := "Asia/Singapore (SGT)"
        total_days := 0, total_captures := 0, days := [] }
    obtain ⟨b1, b2, b3, b4, b5⟩ := addDay_fold (sortEntries arch.entries)
      { last_updated := now2, timezone := "Asia/Singapore (SGT)"
        total_days := 0, total_captures := 0, days := [] }
    have hperm : (sortEntries arch.entries).Perm arch.entries :=
      List.perm_insertionSort _ _
    have hfil := hperm.filter (fun e => e.isDir)
    rw [← h1, ← h2]
    refine ⟨a1, ?_, ?_, ?_, ?_, ?_, ?_, ?_⟩
    · rw [a2, b2]
    · rw [a3, b3]
    · rw [a4, b4]
    · rw [a5, b5]
    · rw [a3]
      simp
      exact hfil.length_eq
    · rw [a4]
      simp
      exact (hfil.map (fun e => countGlob "metadata_" ".json" e.files)).sum_eq
    · rw [a5]
      simp
  · simp only [Bool.not_eq_true] at hr
    simp [generate_summary, hr] at h1

/-- C4 witness: two runs over the same (empty) archive at different
timestamps. -/
theorem generate_summary_deterministic_counts_witness :
    ((⟨"2026-01-23T05:30:45+08:00", "Asia/Singapore (SGT)", 0, 0, []⟩ :
        Summary).last_updated = "2026-01-23T05:30:45+08:00")
    ∧ (⟨"2026-01-23T05:30:45+08:00", "Asia/Singapore (SGT)", 0, 0, []⟩ :
        Summary).timezone
        = (⟨"2026-01-23T12:30:45+08:00", "Asia/Singapore (SGT)", 0, 0, []⟩ :
            Summary).timezone
    ∧ (⟨"2026-01-23T05:30:45+08:00", "Asia/Singapore (SGT)", 0, 0, []⟩ :
        Summary).total_days
        = (⟨"2026-01-23T12:30:45+08:00", "Asia/Singapore (SGT)", 0, 0, []⟩ :
            Summary).total_days
    ∧ (⟨"2026-01-23T05:30:45+08:00", "Asia/Singapore (SGT)", 0, 0, []⟩ :
        Summary).total_captures
        = (⟨"2026-01-23T12:30:45+08:00", "Asia/Singapore (SGT)", 0, 0, []⟩ :
            Summary).total_captures
    ∧ (⟨"2026-01-23T05:30:45+08:00", "Asia/Singapore (SGT)", 0, 0, []⟩ :
        Summary).days
        = (⟨"2026-01-23T12:30:45+08:00", "Asia/Singapore (SGT)", 0, 0, []⟩ :
            Summary).days
    ∧ (⟨"2026-01-23T05:30:45+08:00", "Asia/Singapore (SGT)", 0, 0, []⟩ :
        Summary).total_days
        = (({ rootExists := true, entries := [] } : Archive).entries.filter
            (fun e => e.isDir)).length
    ∧ (⟨"2026-01-23T05:30:45+08:00", "Asia/Singapore (SGT)", 0, 0, []⟩ :
        Summary).total_captures
        = ((({ rootExists := true, entries := [] } : Archive).entries.filter
            (fun e => e.isDir)).map
              (fun e => countGlob "metadata_" ".json" e.files)).sum
    ∧ (⟨"2026-01-23T05:30:45+08:00", "Asia/Singapore (SGT)", 0, 0, []⟩ :
        Summary).days.map (fun d => (d.date, d.captures, d.images))
        = ((sortEntries ({ rootExists := true, entries := [] } : Archive).entries).filter
            (fun e => e.isDir)).map
              (fun e => (e.name, countGlob "metadata_" ".json" e.files,
                countGlob "camera_" ".jpg" e.files)) :=
  generate_summary_deterministic_counts "2026-01-23T05:30:45+08:00"
    "2026-01-23T12:30:45+08:00" { rootExists := true, entries := [] }
    ⟨"2026-01-23T05:30:45+08:00", "Asia/Singapore (SGT)", 0, 0, []⟩
    ⟨"2026-01-23T12:30:45+08:00", "Asia/Singapore (SGT)", 0, 0, []⟩
    rfl rfl
